import Mathlib

/-!
Verification of the `configloader` package: a generic configuration holder
that loads a structured document from a file, detects changes by content
fingerprint, validates the decoded value through a pluggable callback, and
broadcasts accepted values to single-slot subscriber channels.

The repository contains two generations of the loader:
* the current variant (the one the test suite builds against), whose `Load`
  takes no argument, with a `required` flag, a `defaultConfig` helper, and
  soft-failure fallbacks on read errors;
* a legacy variant (`config.go`), whose `Load(path)` has a minimum-size
  guard, whose `Subscribe` dereferences the stored config unconditionally,
  and whose `SetConfigPath` has an early return that skips the unlock.

Both are embedded below.  Machine-level details are modelled as follows:
raw file bytes are `List Nat`; the sha256 hex digest is modelled as the
bytes themselves (digest equality is used by the code purely as a proxy for
byte equality); `yaml.Unmarshal` / `yaml.Marshal` are an opaque
decode/encode pair carried in a `Codec` structure, with encoding total (for
plain record types `yaml.Marshal` does not fail); the validation callback
returns `Option Config` (`none` models a non-nil Go error); a subscriber's
capacity-one channel is an `Option Config` slot (`none` = empty).
-/

namespace Configloader

/-- Raw file contents, a byte string. -/
abbrev Bytes := List Nat

/-- Content digest of raw bytes (`fmt.Sprintf("%x", sha256.Sum256(b))` in the
source).  Digest equality is used by the code only as a proxy for equality of
the raw bytes, so the digest is modelled as the bytes themselves; the Go
zero-value fingerprint `""` is modelled as `none` at the use sites. -/
def fingerprint (bs : Bytes) : Bytes := bs

/-- The opaque document codec: `yaml.Unmarshal` (which can fail) and
`yaml.Marshal` (total here), plus the Go zero value `var zero Config`. -/
structure Codec (Config : Type) where
  decode : Bytes → Option Config
  encode : Config → Bytes
  zero : Config

/-- One subscriber channel of capacity one: `none` means the slot is empty,
`some v` means it holds the undelivered value `v`. -/
abbrev Slot (Config : Type) := Option Config

/-- A non-blocking send into a capacity-one channel (the
`select { case s <- v: default: }` idiom): an empty slot receives the value,
a full slot keeps its undelivered value and the new one is dropped. -/
def offer (v : Config) (slot : Slot Config) : Slot Config :=
  match slot with
  | none => some v
  | some w => some w

/-- State of the current-variant loader (`ConfigLoader[Config]` with the
`required` field).  `fprint = none` models the Go zero value `""`;
`conf = none` models the nil pointer; `subs` holds each subscriber's slot. -/
structure LoaderState (Config : Type) where
  path : String
  required : Bool
  fprint : Option Bytes
  conf : Option Config
  subs : List (Slot Config)
  callback : Option (Config → Option Config)

/-- Result of one `Load` run: the returned error (Go `error`, `none` = nil),
the post state, whether `yaml.Unmarshal` was executed, and the value the
broadcast loop offered to subscribers (`none` when no broadcast ran). -/
structure Outcome (σ : Type) (Config : Type) where
  error : Option String
  state : σ
  decoded : Bool
  broadcast : Option Config

/-- The callback application step of `Load`: `if b.callback != nil { ... }`.
With no callback the decoded value is used as-is; a callback either
transforms the value or rejects it. -/
def applyCallback (cb : Option (Config → Option Config)) (conf : Config) :
    Option Config :=
  match cb with
  | none => some conf
  | some f => f conf

/-- The `defaultConfig` helper of the current variant: the zero value of
`Config`, passed through the callback when one is registered. -/
def defaultConfig (c : Codec Config) (cb : Option (Config → Option Config)) :
    Option Config :=
  match cb with
  | none => some c.zero
  | some f => f c.zero

/-- The current variant's `Load`.  `readFile` is the filesystem's answer to
`os.ReadFile(b.path)` (`none` = read error); it is consulted only on the
branch where the Go code actually reads.  The mutex is taken at entry and
released by `defer` on every path, so it is not tracked here.  The
`yaml.Marshal` error sub-branches of the source are unreachable because
`encode` is total. -/
def load (c : Codec Config) (s : LoaderState Config) (readFile : Option Bytes) :
    Outcome (LoaderState Config) Config :=
  -- if b.path == "" && !b.required : synthesize, store and broadcast a default
  if s.path = "" ∧ s.required = false then
    match defaultConfig c s.callback with
    | none => ⟨some "error getting default config", s, false, none⟩
    | some z =>
      ⟨none,
       { s with conf := some z,
                fprint := some (fingerprint (c.encode z)),
                subs := s.subs.map (offer z) },
       false, some z⟩
  -- if b.path == "" && b.required : explicit error, nothing touched
  else if s.path = "" ∧ s.required = true then
    ⟨some "no config path set, but config is required", s, false, none⟩
  else
    match readFile with
    | some bytes =>
      -- successful read: fingerprint, compare, decode, validate, store, broadcast
      if s.fprint = some (fingerprint bytes) then
        ⟨none, s, false, none⟩
      else
        match c.decode bytes with
        | none => ⟨some "could not deserialize config", s, true, none⟩
        | some conf0 =>
          match applyCallback s.callback conf0 with
          | none => ⟨some "config callback error", s, true, none⟩
          | some conf =>
            ⟨none,
             { s with conf := some conf,
                      fprint := some (fingerprint bytes),
                      subs := s.subs.map (offer conf) },
             true, some conf⟩
    | none =>
      -- unsuccessful read
      if s.conf.isNone ∧ s.required = true then
        ⟨some "could not read required config, no config available", s, false, none⟩
      else if s.conf.isSome then
        ⟨none, s, false, none⟩
      else
        -- no previous config, not required: store the default, no broadcast
        match defaultConfig c s.callback with
        | none => ⟨some "error getting default config", s, false, none⟩
        | some z =>
          ⟨none,
           { s with conf := some z,
                    fprint := some (fingerprint (c.encode z)) },
           false, none⟩

/-- The current variant's `Config()`: if no config is stored yet, run `Load`
once and return whatever is stored afterwards. -/
def configGet (c : Codec Config) (s : LoaderState Config)
    (readFile : Option Bytes) : Option Config × LoaderState Config :=
  if s.conf.isNone then
    let o := load c s readFile
    (o.state.conf, o.state)
  else
    (s.conf, s)

/-- The current variant's `Subscribe`: append a fresh capacity-one channel to
the subscriber list; if a config is stored its value is placed into the new
channel before returning, otherwise the channel stays empty.  The appended
slot is therefore exactly `s.conf`. -/
def subscribe (s : LoaderState Config) : LoaderState Config :=
  { s with subs := s.subs ++ [s.conf] }

/-- State of the legacy-variant loader (`config.go`): no `required` flag.
`lockDepth` counts how many times the mutex is currently held, to make lock
balance provable; operations whose lock/unlock pairing is guaranteed by
`defer` leave it unchanged. -/
structure LegacyState (Config : Type) where
  path : String
  fprint : Option Bytes
  conf : Option Config
  subs : List (Slot Config)
  callback : Option (Config → Option Config)
  lockDepth : Nat

/-- The legacy variant's `Load(path)` (`config.go`): overwrite the stored
path when the argument is non-empty, then read, apply the ten-byte
truncation guard, fingerprint, decode, validate, store and broadcast.  The
mutex is taken at entry and released by `defer` on every path, leaving
`lockDepth` unchanged. -/
def legacyLoad (c : Codec Config) (s : LegacyState Config) (path : String)
    (readFile : Option Bytes) : Outcome (LegacyState Config) Config :=
  let s1 := if path ≠ "" then { s with path := path } else s
  if s1.path = "" then
    ⟨some "no config path specified", s1, false, none⟩
  else
    match readFile with
    | none => ⟨some "could not read config", s1, false, none⟩
    | some bytes =>
      if bytes.length < 10 then
        ⟨some "empty or truncated config", s1, false, none⟩
      else if s1.fprint = some (fingerprint bytes) then
        ⟨none, s1, false, none⟩
      else
        match c.decode bytes with
        | none => ⟨some "could not read config: unmarshal", s1, true, none⟩
        | some conf0 =>
          match applyCallback s1.callback conf0 with
          | none => ⟨some "config callback error", s1, true, none⟩
          | some conf =>
            ⟨none,
             { s1 with conf := some conf,
                       fprint := some (fingerprint bytes),
                       subs := s1.subs.map (offer conf) },
             true, some conf⟩

/-- The legacy variant's `Subscribe` (`config.go` lines 49-56): it appends
the new channel and then executes `ret <- *b.conf` unconditionally.  When no
config is stored, `b.conf` is nil and the dereference is a runtime panic,
modelled as `none`; the deferred unlock still runs during the panic, so
`lockDepth` is unaffected either way. -/
def legacySubscribe (s : LegacyState Config) : Option (LegacyState Config) :=
  match s.conf with
  | none => none
  | some c => some { s with subs := s.subs ++ [some c] }

/-- The legacy variant's `SetConfigPath` (`config.go` lines 58-66):
`b.mu.Lock()`; when the requested path equals the stored one it returns nil
immediately — without ever calling `b.mu.Unlock()`; otherwise it unlocks,
signals the watcher and calls `Load(path)` (whose lock use is balanced). -/
def legacySetConfigPath (c : Codec Config) (s : LegacyState Config)
    (path : String) (readFile : Option Bytes) :
    Option String × LegacyState Config :=
  let s1 := { s with lockDepth := s.lockDepth + 1 }
  if s1.path = path then
    (none, s1)
  else
    let s2 := { s1 with lockDepth := s1.lockDepth - 1 }
    let o := legacyLoad c s2 path readFile
    (o.error, o.state)

/-- A small concrete codec over `Config := Nat`, used by the concrete
witnesses and counterexamples: a byte string decodes to its head byte unless
it is empty or starts with a zero byte. -/
def natCodec : Codec Nat where
  decode bs :=
    match bs with
    | [] => none
    | b :: _ => if b = 0 then none else some b
  encode n := [n, 42]
  zero := 0

/-- C5: with an empty path and `required = true`, `Load` fails with the
no-path error, leaves the stored config, fingerprint and subscriber list
untouched and broadcasts nothing; consequently, when no config was ever
stored, `Config()` reports no value. -/
theorem load_empty_path_required_error (c : Codec Config)
    (s : LoaderState Config) (readFile : Option Bytes)
    (hpath : s.path = "") (hreq : s.required = true) :
    (load c s readFile).error.isSome = true ∧
    (load c s readFile).state = s ∧
    (load c s readFile).broadcast = none ∧
    (s.conf = none → (configGet c s readFile).1 = none) := by
  have hone : ¬ (s.path = "" ∧ s.required = false) := by
    intro h
    rw [hreq] at h
    exact Bool.noConfusion h.2
  have htwo : s.path = "" ∧ s.required = true := ⟨hpath, hreq⟩
  refine ⟨?_, ?_, ?_, ?_⟩
  · simp only [load, if_neg hone, if_pos htwo, Option.isSome_some]
  · simp only [load, if_neg hone, if_pos htwo]
  · simp only [load, if_neg hone, if_pos htwo]
  · intro hconf
    simp only [configGet, hconf, Option.isNone_none]
    simp only [load, if_neg hone, if_pos htwo, hconf]
    simp

/-- Witness for C5 at a concrete loader state. -/
theorem load_empty_path_required_error_witness :
    (("" : String) = "" ∧ (true : Bool) = true) ∧
    ((load natCodec ⟨"", true, none, none, [], none⟩ none).error.isSome = true ∧
     (load natCodec ⟨"", true, none, none, [], none⟩ none).state =
       ⟨"", true, none, none, [], none⟩ ∧
     (load natCodec ⟨"", true, none, none, [], none⟩ none).broadcast = none ∧
     ((⟨"", true, none, none, [], none⟩ : LoaderState Nat).conf = none →
      (configGet natCodec ⟨"", true, none, none, [], none⟩ none).1 = none)) :=
  ⟨⟨rfl, rfl⟩, load_empty_path_required_error natCodec _ none rfl rfl⟩

/-- C3 (amended): with a non-empty path, a previously stored config and a
failing file read, `Load` returns success and leaves the stored config,
fingerprint and subscriber list unchanged — for BOTH values of `required`
(the read error is surfaced only when `required` is true AND no config has
ever been stored); `Config()` keeps returning the prior value. -/
theorem load_read_failure_keeps_config (c : Codec Config)
    (s : LoaderState Config) (c0 : Config)
    (hpath : s.path ≠ "") (hconf : s.conf = some c0) :
    (load c s none).error = none ∧
    (load c s none).state = s ∧
    (load c s none).broadcast = none ∧
    (configGet c (load c s none).state none).1 = some c0 := by
  have hA : ¬ (s.path = "" ∧ s.required = false) := fun h => hpath h.1
  have hB : ¬ (s.path = "" ∧ s.required = true) := fun h => hpath h.1
  have key : load c s none = ⟨none, s, false, none⟩ := by
    simp only [load, if_neg hA, if_neg hB, hconf, Option.isNone_some,
      Option.isSome_some, Bool.false_eq_true, false_and, if_false, if_true]
  rw [key]
  exact ⟨rfl, rfl, rfl, by simp only [configGet, hconf, Option.isNone_some,
    Bool.false_eq_true, if_false]⟩

/-- Witness for C3 at a concrete loader state. -/
theorem load_read_failure_keeps_config_witness :
    ((("ex3.yaml" : String) ≠ "") ∧
     (⟨"ex3.yaml", true, some [9, 9], some 7, [], none⟩ :
        LoaderState Nat).conf = some 7) ∧
    ((load natCodec ⟨"ex3.yaml", true, some [9, 9], some 7, [], none⟩ none).error = none ∧
     (load natCodec ⟨"ex3.yaml", true, some [9, 9], some 7, [], none⟩ none).state =
       ⟨"ex3.yaml", true, some [9, 9], some 7, [], none⟩ ∧
     (load natCodec ⟨"ex3.yaml", true, some [9, 9], some 7, [], none⟩ none).broadcast = none ∧
     (configGet natCodec
       (load natCodec ⟨"ex3.yaml", true, some [9, 9], some 7, [], none⟩ none).state
       none).1 = some 7) :=
  ⟨⟨by decide, rfl⟩,
   load_read_failure_keeps_config natCodec _ 7 (by decide) rfl⟩

/-- C3 counterexample: with `required = true`, a stored config and a failing
read, the current variant's `Load` returns success (nil error), not the
error the claim demands: the guard `b.conf == nil && b.required` does not
fire when a config is already stored. -/
theorem load_read_failure_required_success_cex :
    (load natCodec ⟨"cex3.yaml", true, some [8, 8], some 6, [], none⟩ none).error = none ∧
    (load natCodec ⟨"cex3.yaml", true, some [8, 8], some 6, [], none⟩ none).state.conf = some 6 :=
  ⟨rfl, rfl⟩

/-- C4 (amended): with an empty path and `required = false`, provided the
default value survives the registered callback, `Load` succeeds, stores the
(possibly callback-transformed) zero value together with the fingerprint of
its re-encoded bytes, and offers it to every registered subscriber — on
every such call, with no comparison against any previously stored value or
fingerprint (both are universally quantified here).  When the callback
rejects the zero value, `Load` returns that error instead. -/
theorem load_empty_path_default_broadcast (c : Codec Config)
    (s : LoaderState Config) (readFile : Option Bytes) (d : Config)
    (hpath : s.path = "") (hreq : s.required = false)
    (hcb : defaultConfig c s.callback = some d) :
    (load c s readFile).error = none ∧
    (load c s readFile).state.conf = some d ∧
    (load c s readFile).state.fprint = some (fingerprint (c.encode d)) ∧
    (load c s readFile).state.subs = s.subs.map (offer d) ∧
    (load c s readFile).broadcast = some d := by
  have key : load c s readFile =
      ⟨none,
       { s with conf := some d,
                fprint := some (fingerprint (c.encode d)),
                subs := s.subs.map (offer d) },
       false, some d⟩ := by
    have hP : s.path = "" ∧ s.required = false := ⟨hpath, hreq⟩
    simp only [load, if_pos hP, hcb]
  rw [key]
  exact ⟨rfl, rfl, rfl, rfl, rfl⟩

/-- Witness for C4: the stored value is already the default and the stored
fingerprint already matches the default's encoding, yet the call still
stores and broadcasts (no short-circuit in this branch). -/
theorem load_empty_path_default_broadcast_witness :
    ((("" : String) = "") ∧ ((false : Bool) = false) ∧
     defaultConfig natCodec (some (fun x => some (x + 7))) = some 7) ∧
    ((load natCodec
        ⟨"", false, some (fingerprint (natCodec.encode 7)), some 7, [none, some 3],
         some (fun x => some (x + 7))⟩ none).error = none ∧
     (load natCodec
        ⟨"", false, some (fingerprint (natCodec.encode 7)), some 7, [none, some 3],
         some (fun x => some (x + 7))⟩ none).state.conf = some 7 ∧
     (load natCodec
        ⟨"", false, some (fingerprint (natCodec.encode 7)), some 7, [none, some 3],
         some (fun x => some (x + 7))⟩ none).state.fprint =
       some (fingerprint (natCodec.encode 7)) ∧
     (load natCodec
        ⟨"", false, some (fingerprint (natCodec.encode 7)), some 7, [none, some 3],
         some (fun x => some (x + 7))⟩ none).state.subs =
       [none, some 3].map (offer 7) ∧
     (load natCodec
        ⟨"", false, some (fingerprint (natCodec.encode 7)), some 7, [none, some 3],
         some (fun x => some (x + 7))⟩ none).broadcast = some 7) :=
  ⟨⟨rfl, rfl, rfl⟩,
   load_empty_path_default_broadcast natCodec _ none 7 rfl rfl rfl⟩

/-- C4 counterexample: with an empty path and `required = false`, `Load`
DOES return an error when the registered callback rejects the zero value
(`defaultConfig` propagates the callback failure), refuting the claim that
this branch never errors. -/
theorem load_empty_path_callback_reject_cex :
    (load natCodec ⟨"", false, none, none, [], some (fun _ => none)⟩ none).error.isSome = true :=
  rfl

/-- C9: on every accepted reload (successful read, fresh fingerprint,
successful decode and callback acceptance), the broadcast step maps the
non-blocking `offer` over every subscriber slot: an empty slot receives
exactly the newly stored value, a full slot keeps its undelivered value and
the new one is dropped.  `load` is a total function of its inputs, so its
completion never depends on any subscriber reading. -/
theorem load_broadcast_nonblocking (c : Codec Config)
    (s : LoaderState Config) (bytes : Bytes) (v w : Config)
    (hpath : s.path ≠ "") (hfp : s.fprint ≠ some (fingerprint bytes))
    (hdec : c.decode bytes = some v)
    (hcb : applyCallback s.callback v = some w) :
    (load c s (some bytes)).error = none ∧
    (load c s (some bytes)).state.conf = some w ∧
    (load c s (some bytes)).state.subs = s.subs.map (offer w) ∧
    (load c s (some bytes)).broadcast = some w ∧
    offer w (none : Slot Config) = some w ∧
    (∀ u : Config, offer w (some u) = some u) := by
  have hA : ¬ (s.path = "" ∧ s.required = false) := fun h => hpath h.1
  have hB : ¬ (s.path = "" ∧ s.required = true) := fun h => hpath h.1
  have key : load c s (some bytes) =
      ⟨none,
       { s with conf := some w,
                fprint := some (fingerprint bytes),
                subs := s.subs.map (offer w) },
       true, some w⟩ := by
    simp only [load, if_neg hA, if_neg hB, if_neg hfp, hdec, hcb]
  rw [key]
  exact ⟨rfl, rfl, rfl, rfl, rfl, fun u => rfl⟩

/-- Witness for C9: two subscribers, one empty slot and one full slot; the
empty slot receives the new value, the full slot is left unchanged. -/
theorem load_broadcast_nonblocking_witness :
    ((("ex9.yaml" : String) ≠ "") ∧
     ((none : Option Bytes) ≠ some (fingerprint [5, 1, 2])) ∧
     natCodec.decode [5, 1, 2] = some 5 ∧
     applyCallback (none : Option (Nat → Option Nat)) 5 = some 5) ∧
    ((load natCodec ⟨"ex9.yaml", false, none, none, [none, some 9], none⟩
        (some [5, 1, 2])).error = none ∧
     (load natCodec ⟨"ex9.yaml", false, none, none, [none, some 9], none⟩
        (some [5, 1, 2])).state.conf = some 5 ∧
     (load natCodec ⟨"ex9.yaml", false, none, none, [none, some 9], none⟩
        (some [5, 1, 2])).state.subs = [none, some 9].map (offer 5) ∧
     (load natCodec ⟨"ex9.yaml", false, none, none, [none, some 9], none⟩
        (some [5, 1, 2])).broadcast = some 5 ∧
     offer 5 (none : Slot Nat) = some 5 ∧
     (∀ u : Nat, offer 5 (some u) = some u)) :=
  ⟨⟨by decide, by decide, rfl, rfl⟩,
   load_broadcast_nonblocking natCodec _ [5, 1, 2] 5 5 (by decide) (by decide) rfl rfl⟩

/-- C1 (amended): with a stored `(config, fingerprint)` pair, a non-empty
path, and file content WHOSE FINGERPRINT DIFFERS FROM THE STORED ONE, if the
bytes fail to decode, or decode to a value the registered callback rejects,
then `Load` returns an error and leaves the stored config, fingerprint and
subscriber slots exactly as before, broadcasting nothing; in particular the
new content's fingerprint is not stored, so an identical retry re-runs
decode and validation. -/
theorem load_reject_preserves_state (c : Codec Config)
    (s : LoaderState Config) (c0 : Config) (f0 : Bytes) (bytes : Bytes)
    (hpath : s.path ≠ "") (_hconf : s.conf = some c0) (hfp : s.fprint = some f0)
    (hdiff : f0 ≠ fingerprint bytes)
    (hrej : c.decode bytes = none ∨
            ∃ v, c.decode bytes = some v ∧ applyCallback s.callback v = none) :
    (load c s (some bytes)).error.isSome = true ∧
    (load c s (some bytes)).state = s ∧
    (load c s (some bytes)).decoded = true ∧
    (load c s (some bytes)).broadcast = none := by
  have hA : ¬ (s.path = "" ∧ s.required = false) := fun h => hpath h.1
  have hB : ¬ (s.path = "" ∧ s.required = true) := fun h => hpath h.1
  have hne : s.fprint ≠ some (fingerprint bytes) := by
    rw [hfp]
    intro h
    exact hdiff (Option.some.inj h)
  rcases hrej with hd | ⟨v, hd, hr⟩
  · have key : load c s (some bytes) =
        ⟨some "could not deserialize config", s, true, none⟩ := by
      simp only [load, if_neg hA, if_neg hB, if_neg hne, hd]
    rw [key]
    exact ⟨rfl, rfl, rfl, rfl⟩
  · have key : load c s (some bytes) =
        ⟨some "config callback error", s, true, none⟩ := by
      simp only [load, if_neg hA, if_neg hB, if_neg hne, hd, hr]
    rw [key]
    exact ⟨rfl, rfl, rfl, rfl⟩

/-- Witness for C1: fresh content decodes but the registered callback
rejects it; the previously stored pair and the full subscriber slot survive
untouched. -/
theorem load_reject_preserves_state_witness :
    ((("ex1.yaml" : String) ≠ "") ∧
     (⟨"ex1.yaml", false, some [7, 7], some 7, [some 1],
        some (fun _ => none)⟩ : LoaderState Nat).conf = some 7 ∧
     (⟨"ex1.yaml", false, some [7, 7], some 7, [some 1],
        some (fun _ => none)⟩ : LoaderState Nat).fprint = some [7, 7] ∧
     ([7, 7] : Bytes) ≠ fingerprint [5, 5] ∧
     (natCodec.decode [5, 5] = none ∨
      ∃ v, natCodec.decode [5, 5] = some v ∧
        applyCallback (⟨"ex1.yaml", false, some [7, 7], some 7, [some 1],
          some (fun _ => none)⟩ : LoaderState Nat).callback v = none)) ∧
    ((load natCodec ⟨"ex1.yaml", false, some [7, 7], some 7, [some 1],
        some (fun _ => none)⟩ (some [5, 5])).error.isSome = true ∧
     (load natCodec ⟨"ex1.yaml", false, some [7, 7], some 7, [some 1],
        some (fun _ => none)⟩ (some [5, 5])).state =
       ⟨"ex1.yaml", false, some [7, 7], some 7, [some 1], some (fun _ => none)⟩ ∧
     (load natCodec ⟨"ex1.yaml", false, some [7, 7], some 7, [some 1],
        some (fun _ => none)⟩ (some [5, 5])).decoded = true ∧
     (load natCodec ⟨"ex1.yaml", false, some [7, 7], some 7, [some 1],
        some (fun _ => none)⟩ (some [5, 5])).broadcast = none) :=
  ⟨⟨by decide, rfl, rfl, by decide, Or.inr ⟨5, rfl, rfl⟩⟩,
   load_reject_preserves_state natCodec _ 7 [7, 7] [5, 5]
     (by decide) rfl rfl (by decide) (Or.inr ⟨5, rfl, rfl⟩)⟩

/-- C1 counterexample: when the content's fingerprint EQUALS the stored one
(reachable by re-registering a stricter callback after a successful load),
`Load` returns success — not an error — even though the bytes decode to a
value the registered callback rejects: the fingerprint short-circuit fires
before decode and validation. -/
theorem load_reject_fingerprint_match_cex :
    (load natCodec ⟨"cex1.yaml", false, some (fingerprint [3]), some 7, [],
        some (fun _ => none)⟩ (some [3])).error = none ∧
    natCodec.decode [3] = some 3 ∧
    applyCallback (some (fun _ => (none : Option Nat))) 3 = none :=
  ⟨rfl, rfl, rfl⟩

/-- C2 (amended): with a non-empty path, whenever a `Load` over some file
bytes returns success, an immediately following `Load` over the identical
bytes returns success without running decode, leaves the whole loader state
unchanged and broadcasts nothing (the fingerprint short-circuit).  When the
first call is rejected (decode or validation failure) the second call
instead re-runs decode and fails identically. -/
theorem load_idempotent_after_success (c : Codec Config)
    (s : LoaderState Config) (bytes : Bytes) (hpath : s.path ≠ "")
    (h1 : (load c s (some bytes)).error = none) :
    (load c (load c s (some bytes)).state (some bytes)).error = none ∧
    (load c (load c s (some bytes)).state (some bytes)).decoded = false ∧
    (load c (load c s (some bytes)).state (some bytes)).broadcast = none ∧
    (load c (load c s (some bytes)).state (some bytes)).state =
      (load c s (some bytes)).state := by
  have hA : ¬ (s.path = "" ∧ s.required = false) := fun h => hpath h.1
  have hB : ¬ (s.path = "" ∧ s.required = true) := fun h => hpath h.1
  have hstate : (load c s (some bytes)).state.fprint = some (fingerprint bytes) ∧
      (load c s (some bytes)).state.path = s.path := by
    by_cases hfp : s.fprint = some (fingerprint bytes)
    · have key : load c s (some bytes) = ⟨none, s, false, none⟩ := by
        simp only [load, if_neg hA, if_neg hB, if_pos hfp]
      rw [key]
      exact ⟨hfp, rfl⟩
    · cases hd : c.decode bytes with
      | none =>
        exfalso
        have hbad : (load c s (some bytes)).error =
            some "could not deserialize config" := by
          simp only [load, if_neg hA, if_neg hB, if_neg hfp, hd]
        rw [hbad] at h1
        exact Option.noConfusion h1
      | some v =>
        cases hr : applyCallback s.callback v with
        | none =>
          exfalso
          have hbad : (load c s (some bytes)).error =
              some "config callback error" := by
            simp only [load, if_neg hA, if_neg hB, if_neg hfp, hd, hr]
          rw [hbad] at h1
          exact Option.noConfusion h1
        | some w =>
          have key : load c s (some bytes) =
              ⟨none,
               { s with conf := some w,
                        fprint := some (fingerprint bytes),
                        subs := s.subs.map (offer w) },
               true, some w⟩ := by
            simp only [load, if_neg hA, if_neg hB, if_neg hfp, hd, hr]
          rw [key]
          exact ⟨rfl, rfl⟩
  obtain ⟨hfp1, hp1⟩ := hstate
  generalize hgen : (load c s (some bytes)).state = s1 at hfp1 hp1 ⊢
  have hA1 : ¬ (s1.path = "" ∧ s1.required = false) :=
    fun h => hpath (hp1 ▸ h.1)
  have hB1 : ¬ (s1.path = "" ∧ s1.required = true) :=
    fun h => hpath (hp1 ▸ h.1)
  have key2 : load c s1 (some bytes) = ⟨none, s1, false, none⟩ := by
    simp only [load, if_neg hA1, if_neg hB1, if_pos hfp1]
  rw [key2]
  exact ⟨rfl, rfl, rfl, rfl⟩

/-- Witness for C2 at a concrete state: first load accepts `[5, 1]`; the
second identical load is a success no-op without decode or broadcast. -/
theorem load_idempotent_after_success_witness :
    ((("ex2.yaml" : String) ≠ "") ∧
     (load natCodec ⟨"ex2.yaml", false, none, none, [], none⟩
        (some [5, 1])).error = none) ∧
    ((load natCodec (load natCodec ⟨"ex2.yaml", false, none, none, [], none⟩
        (some [5, 1])).state (some [5, 1])).error = none ∧
     (load natCodec (load natCodec ⟨"ex2.yaml", false, none, none, [], none⟩
        (some [5, 1])).state (some [5, 1])).decoded = false ∧
     (load natCodec (load natCodec ⟨"ex2.yaml", false, none, none, [], none⟩
        (some [5, 1])).state (some [5, 1])).broadcast = none ∧
     (load natCodec (load natCodec ⟨"ex2.yaml", false, none, none, [], none⟩
        (some [5, 1])).state (some [5, 1])).state =
       (load natCodec ⟨"ex2.yaml", false, none, none, [], none⟩
        (some [5, 1])).state) :=
  ⟨⟨by decide, rfl⟩,
   load_idempotent_after_success natCodec _ [5, 1] (by decide) rfl⟩

/-- C2 counterexample: when the first load of some bytes is REJECTED (here a
decode failure, so no fingerprint is stored), the second load of the
identical bytes is not a success and runs decode again — refuting the
claim's unconditional "second call returns success without decoding". -/
theorem load_twice_bad_bytes_cex :
    (load natCodec (load natCodec ⟨"cex2.yaml", false, none, none, [], none⟩
       (some [0, 1])).state (some [0, 1])).error.isSome = true ∧
    (load natCodec (load natCodec ⟨"cex2.yaml", false, none, none, [], none⟩
       (some [0, 1])).state (some [0, 1])).decoded = true :=
  ⟨rfl, rfl⟩

/-- C6 (amended): with no previously stored config, a non-empty path whose
read fails and `required = false`, `Load` returns success and stores the
default value (zero value passed through the callback) together with the
fingerprint of its re-encoded bytes — but, UNLIKE the empty-path default
branch, it does NOT broadcast: the subscriber slots are left untouched. -/
theorem load_read_failure_stores_default_quietly (c : Codec Config)
    (s : LoaderState Config) (d : Config)
    (hpath : s.path ≠ "") (hconf : s.conf = none) (hreq : s.required = false)
    (hcb : defaultConfig c s.callback = some d) :
    (load c s none).error = none ∧
    (load c s none).state.conf = some d ∧
    (load c s none).state.fprint = some (fingerprint (c.encode d)) ∧
    (load c s none).state.subs = s.subs ∧
    (load c s none).broadcast = none := by
  have hA : ¬ (s.path = "" ∧ s.required = false) := fun h => hpath h.1
  have hB : ¬ (s.path = "" ∧ s.required = true) := fun h => hpath h.1
  have key : load c s none =
      ⟨none,
       { s with conf := some d,
                fprint := some (fingerprint (c.encode d)) },
       false, none⟩ := by
    simp only [load, if_neg hA, if_neg hB]
    simp only [hconf, hreq, Option.isNone_none, Option.isSome_none,
      Bool.false_eq_true, and_false, if_false, hcb]
  rw [key]
  exact ⟨rfl, rfl, rfl, rfl, rfl⟩

/-- Witness for C6 at a concrete loader state with a callback supplying a
default and one (empty-slot) subscriber that receives nothing. -/
theorem load_read_failure_stores_default_quietly_witness :
    ((("ex6.yaml" : String) ≠ "") ∧
     (⟨"ex6.yaml", false, none, none, [none],
        some (fun x => some (x + 1))⟩ : LoaderState Nat).conf = none ∧
     ((false : Bool) = false) ∧
     defaultConfig natCodec (some (fun x => some (x + 1))) = some 1) ∧
    ((load natCodec ⟨"ex6.yaml", false, none, none, [none],
        some (fun x => some (x + 1))⟩ none).error = none ∧
     (load natCodec ⟨"ex6.yaml", false, none, none, [none],
        some (fun x => some (x + 1))⟩ none).state.conf = some 1 ∧
     (load natCodec ⟨"ex6.yaml", false, none, none, [none],
        some (fun x => some (x + 1))⟩ none).state.fprint =
       some (fingerprint (natCodec.encode 1)) ∧
     (load natCodec ⟨"ex6.yaml", false, none, none, [none],
        some (fun x => some (x + 1))⟩ none).state.subs = [none] ∧
     (load natCodec ⟨"ex6.yaml", false, none, none, [none],
        some (fun x => some (x + 1))⟩ none).broadcast = none) :=
  ⟨⟨by decide, rfl, rfl, rfl⟩,
   load_read_failure_stores_default_quietly natCodec _ 1 (by decide) rfl rfl rfl⟩

/-- C6 counterexample: in the read-failure default branch the registered
subscriber's empty slot stays empty — the code stores the default but never
runs the broadcast loop, refuting the claim's "broadcasts it to every
registered subscriber, exactly as in the empty-path default branch". -/
theorem load_read_failure_default_no_broadcast_cex :
    (load natCodec ⟨"cex6.yaml", false, none, none, [none], none⟩ none).error = none ∧
    (load natCodec ⟨"cex6.yaml", false, none, none, [none], none⟩ none).state.conf = some 0 ∧
    (load natCodec ⟨"cex6.yaml", false, none, none, [none], none⟩ none).state.subs = [none] ∧
    (load natCodec ⟨"cex6.yaml", false, none, none, [none], none⟩ none).broadcast = none :=
  ⟨rfl, rfl, rfl, rfl⟩

/-- The current variant's `Subscribe` appends exactly one new channel whose
slot holds the stored value when one is present and is empty otherwise; it
is a total function of the state. -/
theorem subscribe_appends_current_value (s : LoaderState Config) :
    (subscribe s).subs = s.subs ++ [s.conf] :=
  rfl

/-- C7: the legacy `Subscribe` (`config.go`) executes `ret <- *b.conf`
unconditionally after appending the new channel; on a loader with no stored
config this dereferences a nil pointer and panics (modelled as `none`),
contradicting the claim that Subscribe never fails or panics when no config
is stored.  The current variant guards the dereference with a nil check and
does satisfy the claim. -/
theorem legacy_subscribe_no_config_panics :
    legacySubscribe (⟨"cfg7.yaml", none, none, [], none, 0⟩ : LegacyState Nat) = none :=
  rfl

/-- C8 (amended): the LEGACY `Load` (`config.go`) rejects a successful read
of fewer than ten bytes with an error before comparing fingerprints or
attempting to decode, leaving the stored config, fingerprint and subscriber
slots unchanged and broadcasting nothing.  The current required-flag variant
applies no such minimum-size guard. -/
theorem legacy_load_truncated_rejected (c : Codec Config)
    (s : LegacyState Config) (p : String) (bytes : Bytes)
    (hpath : p ≠ "" ∨ s.path ≠ "") (hshort : bytes.length < 10) :
    (legacyLoad c s p (some bytes)).error.isSome = true ∧
    (legacyLoad c s p (some bytes)).state.conf = s.conf ∧
    (legacyLoad c s p (some bytes)).state.fprint = s.fprint ∧
    (legacyLoad c s p (some bytes)).state.subs = s.subs ∧
    (legacyLoad c s p (some bytes)).decoded = false ∧
    (legacyLoad c s p (some bytes)).broadcast = none := by
  by_cases hp : p = ""
  · have hsp : s.path ≠ "" := hpath.resolve_left (fun h => h hp)
    have hnp : ¬ (p ≠ "") := fun h => h hp
    have key : legacyLoad c s p (some bytes) =
        ⟨some "empty or truncated config", s, false, none⟩ := by
      simp only [legacyLoad, if_neg hnp, if_neg hsp, if_pos hshort]
    rw [key]
    exact ⟨rfl, rfl, rfl, rfl, rfl, rfl⟩
  · have key : legacyLoad c s p (some bytes) =
        ⟨some "empty or truncated config", { s with path := p }, false, none⟩ := by
      simp only [legacyLoad, if_pos hp, if_neg hp, if_pos hshort]
    rw [key]
    exact ⟨rfl, rfl, rfl, rfl, rfl, rfl⟩

/-- Witness for C8: a one-byte file (which would otherwise decode) is
rejected by the legacy loader even though its fingerprint differs from the
stored one, and the previously stored pair survives. -/
theorem legacy_load_truncated_rejected_witness :
    (((("legacy8.yaml" : String) ≠ "") ∨
      ((("" : String)) ≠ "")) ∧ ([7] : Bytes).length < 10) ∧
    ((legacyLoad natCodec ⟨"", some [9], some 3, [none], none, 0⟩
        "legacy8.yaml" (some [7])).error.isSome = true ∧
     (legacyLoad natCodec ⟨"", some [9], some 3, [none], none, 0⟩
        "legacy8.yaml" (some [7])).state.conf = some 3 ∧
     (legacyLoad natCodec ⟨"", some [9], some 3, [none], none, 0⟩
        "legacy8.yaml" (some [7])).state.fprint = some [9] ∧
     (legacyLoad natCodec ⟨"", some [9], some 3, [none], none, 0⟩
        "legacy8.yaml" (some [7])).state.subs = [none] ∧
     (legacyLoad natCodec ⟨"", some [9], some 3, [none], none, 0⟩
        "legacy8.yaml" (some [7])).decoded = false ∧
     (legacyLoad natCodec ⟨"", some [9], some 3, [none], none, 0⟩
        "legacy8.yaml" (some [7])).broadcast = none) :=
  ⟨⟨Or.inl (by decide), by decide⟩,
   legacy_load_truncated_rejected natCodec _ "legacy8.yaml" [7]
     (Or.inl (by decide)) (by decide)⟩

/-- C8 counterexample: the current variant's `Load` accepts a one-byte file
— it fingerprints, decodes, stores and would broadcast it — because the
ten-byte truncation guard exists only in the legacy variant. -/
theorem load_short_bytes_accepted_cex :
    (load natCodec ⟨"cex8.yaml", false, none, none, [], none⟩ (some [5])).error = none ∧
    (load natCodec ⟨"cex8.yaml", false, none, none, [], none⟩ (some [5])).state.conf = some 5 ∧
    (load natCodec ⟨"cex8.yaml", false, none, none, [], none⟩ (some [5])).state.fprint =
      some (fingerprint [5]) :=
  ⟨rfl, rfl, rfl⟩

/-- C10: the legacy `SetConfigPath` (`config.go` lines 58-66) takes the
mutex and, when the requested path equals the stored one, returns nil
without ever unlocking: starting from a released mutex (`lockDepth = 0`)
the no-op call returns success with the mutex still held (`lockDepth = 1`),
so every subsequent operation on the loader deadlocks.  The later variants
add the missing unlock, which is strong evidence the claim describes the
intent and this early return is a slip. -/
theorem legacy_set_config_path_noop_lock_leak :
    (legacySetConfigPath natCodec ⟨"same.yaml", none, none, [], none, 0⟩
       "same.yaml" none).1 = none ∧
    (legacySetConfigPath natCodec ⟨"same.yaml", none, none, [], none, 0⟩
       "same.yaml" none).2.lockDepth = 1 :=
  ⟨rfl, rfl⟩

/-- Lock balance of the legacy `SetConfigPath` on the path-changing branch:
when the requested path differs, the explicit unlock runs and the nested
`Load` is lock-balanced, so the mutex hold count is restored.  This isolates
the no-op branch as the only unbalanced path. -/
theorem legacy_set_config_path_change_balanced (c : Codec Config)
    (s : LegacyState Config) (p : String) (readFile : Option Bytes)
    (hne : s.path ≠ p) :
    (legacySetConfigPath c s p readFile).2.lockDepth = s.lockDepth := by
  simp only [legacySetConfigPath, if_neg hne]
  have hdepth : ∀ (t : LegacyState Config),
      (legacyLoad c t p readFile).state.lockDepth = t.lockDepth := by
    intro t
    simp only [legacyLoad]
    repeat' split
    all_goals rfl
  rw [hdepth]
  exact Nat.add_sub_cancel s.lockDepth 1

end Configloader
